import Mathlib

/-!
# Verification of the Snowflake AI-enablement analysis pipeline

Shallow embedding of the candidate scoring and confirmation pipeline of
`scripts/snowflake_full_analysis.py` and
`scripts/snowflake_ai_readiness_metadata.py`, together with theorems that
settle the specification's claims about it.

Conventions of the embedding:
* Python numbers (ints and floats used in scores, percentages, lengths) are
  modelled as `ℚ`; all the arithmetic performed by the scoring code is exact
  decimal arithmetic, so `ℚ` reproduces it faithfully.
* Python's `round(x, 2)` is modelled by `pyRound2`.  (Python rounds floats
  half-to-even; every concrete value rounded in this development is never an
  exact half at the second decimal, so the rounding direction at halves is
  irrelevant.)
* A dictionary key that may be absent is an `Option` field; Python truthiness
  of a number is "`≠ 0`", of a string "non-empty", of a dict/list
  "non-empty", and is spelled out at each use site.
* Timestamps only ever reach the scoring code as the integer age in days
  `(now - last_altered).days`; `last_altered` is therefore modelled as that
  optional age (`none` for a missing or unparseable timestamp).
-/

/-- Python's `round(q, 2)` on the exact rationals arising in the pipeline:
round `q` to two decimal places (half away from zero upward; no value rounded
in this development is an exact half at the second decimal). -/
def pyRound2 (q : ℚ) : ℚ := (⌊q * 100 + 1/2⌋ : ℚ) / 100

/-- `charsStartWith hay needle` : does `hay` start with `needle`? -/
def charsStartWith : List Char → List Char → Bool
  | _, [] => true
  | [], _ :: _ => false
  | h :: hs, n :: ns => (h = n) && charsStartWith hs ns

/-- `charsContain hay needle` : does `needle` occur contiguously in `hay`?
Models Python's `needle in hay` on strings. -/
def charsContain : List Char → List Char → Bool
  | [], n => n.isEmpty
  | h :: hs, n => charsStartWith (h :: hs) n || charsContain hs n

/-- Python's `needle in hay` for strings. -/
def containsSub (hay needle : String) : Bool := charsContain hay.data needle.data

/-- Python's `str.upper()` (the identifiers and type names fed to it are
ASCII). -/
def pyUpper (s : String) : String := String.mk (s.data.map Char.toUpper)

/-- Python's `str.strip()`: drop leading and trailing whitespace. -/
def pyStrip (s : String) : String :=
  String.mk (((s.data.dropWhile Char.isWhitespace).reverse.dropWhile
    Char.isWhitespace).reverse)

/-- The characters of `s` before its first `'('`; models
`s.split('(')[0]`. -/
def upToParen : List Char → List Char
  | [] => []
  | c :: cs => if c = '(' then [] else c :: upToParen cs

theorem charsContain_append_right (a b n : List Char) (h : charsContain b n = true) :
    charsContain (a ++ b) n = true := by
  induction a with
  | nil => simpa using h
  | cons x xs ih =>
    simp only [List.cons_append, charsContain, Bool.or_eq_true]
    exact Or.inr ih

theorem pyRound2_fixed (q : ℚ) (n : ℤ) (h : q * 100 = (n : ℚ)) : pyRound2 q = q := by
  have hfloor : ⌊q * 100 + 1/2⌋ = n := by
    rw [h, Int.floor_int_add]
    norm_num
  have hq : q = (n : ℚ) / 100 := by
    field_simp at h ⊢
    linarith
  rw [pyRound2, hfloor, hq]

/-! ## Confirmation thresholds (`snowflake_full_analysis.py`, config defaults) -/

/-- `CONFIRM_MIN_DATA_READINESS` (default `3.5`). -/
def CONFIRM_MIN_DATA_READINESS : ℚ := 7/2

/-- `CONFIRM_MAX_SPARSITY` (default `50`). -/
def CONFIRM_MAX_SPARSITY : ℚ := 50

/-- `CONFIRM_MIN_AVG_TEXT_LENGTH` (default `30`). -/
def CONFIRM_MIN_AVG_TEXT_LENGTH : ℚ := 30

/-! ## The statistics dictionary as read by `is_confirmed_candidate` -/

/-- The slice of a candidate's `statistics` dict that `is_confirmed_candidate`
reads.  `none` models an absent key (or an absent nested dict): flat
`null_percentage` / `avg_length`, nested `sparsity.null_percentage`,
`content_type.avg_length`, `content_type.is_natural_language`, and
`json_structure.is_valid_structure`. -/
structure ConfStats where
  null_percentage : Option ℚ
  sparsity_null_percentage : Option ℚ
  avg_length : Option ℚ
  content_avg_length : Option ℚ
  is_natural_language : Option Bool
  json_valid : Option Bool
deriving DecidableEq

/-- The slice of a candidate dict that `is_confirmed_candidate` reads:
`ai_feature` (default `''`), `statistics` (default `{}`), and
`scores['data_readiness']` (`none` when the candidate has no scores;
the code then defaults it to `0`). -/
structure ConfCandidate where
  ai_feature : String
  statistics : ConfStats
  data_readiness : Option ℚ
deriving DecidableEq

/-- One entry of the `reasons` list built by `is_confirmed_candidate`; each
constructor is one of the f-strings of the source, carrying the numeric value
that is interpolated into it. -/
inductive Reason where
  | highSparsity (pct : ℚ)
  | goodCompleteness (pct : ℚ)
  | shortContent (len : ℚ)
  | substantialContent (len : ℚ)
  | notNaturalLanguage
  | naturalLanguage
  | invalidJson
  | validJson
  | lowReadiness (score : ℚ)
  | goodReadiness (score : ℚ)
deriving DecidableEq

/-- The position of a reason's check in the fixed evaluation order of
`is_confirmed_candidate`: sparsity (0), content quality (1), structure
validity (2), readiness score (3). -/
def Reason.cat : Reason → ℕ
  | .highSparsity _ => 0
  | .goodCompleteness _ => 0
  | .shortContent _ => 1
  | .substantialContent _ => 1
  | .notNaturalLanguage => 1
  | .naturalLanguage => 1
  | .invalidJson => 2
  | .validJson => 2
  | .lowReadiness _ => 3
  | .goodReadiness _ => 3

/-- `null_pct = stats.get('null_percentage') or stats.get('sparsity', {}).get('null_percentage', 100)`:
a missing or falsy (`0.0`) flat value falls through to the nested value, which
defaults to `100`. -/
def sparsityNullPct (s : ConfStats) : ℚ :=
  match s.null_percentage with
  | some v => if v = 0 then s.sparsity_null_percentage.getD 100 else v
  | none => s.sparsity_null_percentage.getD 100

/-- Check 1 of `is_confirmed_candidate` (sparsity). -/
def sparsityCheck (s : ConfStats) : Bool × List Reason :=
  let p := sparsityNullPct s
  if p > CONFIRM_MAX_SPARSITY then (false, [.highSparsity p])
  else (true, [.goodCompleteness (100 - p)])

/-- `avg_len = stats.get('avg_length') or stats.get('content_type', {}).get('avg_length', 0)`. -/
def contentAvgLen (s : ConfStats) : ℚ :=
  match s.avg_length with
  | some v => if v = 0 then s.content_avg_length.getD 0 else v
  | none => s.content_avg_length.getD 0

/-- Check 2 of `is_confirmed_candidate` (content quality for text columns,
only for `'Cortex LLM'` and `'Cortex Search / RAG'` candidates):
`if avg_len and avg_len < CONFIRM_MIN_AVG_TEXT_LENGTH` fails, `elif avg_len`
records substantial content, and a falsy `avg_len` appends nothing; then the
natural-language flag fails only when explicitly `False` and appends nothing
when absent. -/
def contentCheck (ai : String) (s : ConfStats) : Bool × List Reason :=
  if ai = "Cortex LLM" ∨ ai = "Cortex Search / RAG" then
    let l := contentAvgLen s
    let lenPart : Bool × List Reason :=
      if l ≠ 0 ∧ l < CONFIRM_MIN_AVG_TEXT_LENGTH then (false, [.shortContent l])
      else if l ≠ 0 then (true, [.substantialContent l])
      else (true, [])
    let nlPart : Bool × List Reason :=
      match s.is_natural_language with
      | some false => (false, [.notNaturalLanguage])
      | some true => (true, [.naturalLanguage])
      | none => (true, [])
    (lenPart.1 && nlPart.1, lenPart.2 ++ nlPart.2)
  else (true, [])

/-- Check 3 of `is_confirmed_candidate` (JSON structure, only for
`'Cortex Extract'` candidates): fails only when the validity flag is
explicitly `False`, appends nothing when it is absent. -/
def structureCheck (ai : String) (s : ConfStats) : Bool × List Reason :=
  if ai = "Cortex Extract" then
    match s.json_valid with
    | some false => (false, [.invalidJson])
    | some true => (true, [.validJson])
    | none => (true, [])
  else (true, [])

/-- Check 4 of `is_confirmed_candidate` (data readiness score,
`candidate.get('scores', {}).get('data_readiness', 0)`). -/
def readinessCheck (dr : ℚ) : Bool × List Reason :=
  if dr < CONFIRM_MIN_DATA_READINESS then (false, [.lowReadiness dr])
  else (true, [.goodReadiness dr])

/-- `is_confirmed_candidate(candidate, profile=None)` of
`snowflake_full_analysis.py` (the pipeline's Phase 5B calls it without a
profile): runs the four checks in order, `is_confirmed` is falsified by any
failing check, and the reason lists accumulate in evaluation order. -/
def is_confirmed_candidate (c : ConfCandidate) : Bool × List Reason :=
  let s1 := sparsityCheck c.statistics
  let s2 := contentCheck c.ai_feature c.statistics
  let s3 := structureCheck c.ai_feature c.statistics
  let s4 := readinessCheck (c.data_readiness.getD 0)
  (s1.1 && s2.1 && s3.1 && s4.1, s1.2 ++ s2.2 ++ s3.2 ++ s4.2)

/-! ## Metadata-estimated column statistics
(`snowflake_ai_readiness_metadata.py`) -/

/-- `TEXT_TYPES` of `snowflake_ai_readiness_metadata.py`. -/
def TEXT_TYPES : List String := ["VARCHAR", "TEXT", "STRING", "CHAR", "CHARACTER"]

/-- `NUMERIC_TYPES` of `snowflake_ai_readiness_metadata.py`. -/
def NUMERIC_TYPES : List String :=
  ["NUMBER", "DECIMAL", "NUMERIC", "INT", "INTEGER", "BIGINT", "SMALLINT",
   "TINYINT", "BYTEINT", "FLOAT", "FLOAT4", "FLOAT8", "DOUBLE",
   "DOUBLE PRECISION", "REAL"]

/-- `SEMI_STRUCTURED_TYPES` of `snowflake_ai_readiness_metadata.py`. -/
def SEMI_STRUCTURED_TYPES : List String := ["VARIANT", "OBJECT", "ARRAY"]

/-- `UNSUPPORTED_AI_TYPES` of `snowflake_ai_readiness_metadata.py`. -/
def UNSUPPORTED_AI_TYPES : List String := ["BINARY", "VARBINARY", "GEOGRAPHY", "GEOMETRY"]

/-- `base_type = data_type.split('(')[0].strip()` applied to the uppercased
declared type. -/
def baseTypeOf (data_type : String) : String :=
  pyStrip (String.mk (upToParen (pyUpper data_type).data))

/-- One entry of the column-metadata lookup, as read by
`compute_column_metadata_stats`: `data_type` (default `''`),
`character_maximum_length` (`none` for a missing/`None` value; `0` is falsy in
the source's `if char_max_len:`), `is_nullable` (default `'YES'`), and
`column_comment` (default `''`). -/
structure ColumnMetaRow where
  data_type : String
  character_maximum_length : Option ℤ
  is_nullable : String
  column_comment : String
  numeric_precision : Option ℤ
  numeric_scale : Option ℤ
deriving DecidableEq

/-- The slice of a table-metadata entry read by
`compute_column_metadata_stats`: `table_meta.get('row_count') or 0`. -/
structure TableMetaRow where
  row_count : Option ℤ
deriving DecidableEq

/-- The dict produced by `compute_column_metadata_stats`: keys that a branch
does not write are `none`.  (`source` is always `'metadata_only'` and is kept
as a `String` field.) -/
structure MetaStats where
  row_count : ℤ
  data_type : String
  is_nullable : String
  has_comment : Bool
  source : String
  null_percentage : ℚ
  non_null_count : ℤ
  max_length : Option ℤ
  avg_length : Option ℚ
  min_length : Option ℤ
  numeric_precision : Option ℤ
  numeric_scale : Option ℤ
  is_semi_structured : Bool
deriving DecidableEq

/-- The text-column test of `compute_column_metadata_stats`:
`base_type in TEXT_TYPES or any(t in base_type for t in ['VARCHAR', 'TEXT', 'STRING', 'CHAR'])`. -/
def isTextBase (base : String) : Bool :=
  TEXT_TYPES.contains base
    || (["VARCHAR", "TEXT", "STRING", "CHAR"].any fun t => containsSub base t)

/-- The numeric-column test of `compute_column_metadata_stats`. -/
def isNumericBase (base : String) : Bool :=
  NUMERIC_TYPES.contains base
    || (["NUMBER", "INT", "FLOAT", "DOUBLE", "DECIMAL"].any fun t => containsSub base t)

/-- `compute_column_metadata_stats(column_meta, table_meta)` of
`snowflake_ai_readiness_metadata.py`: statistics for a single column derived
from metadata only.  `int(row_count * 0.8)` truncates toward zero and is
modelled by `Int.tdiv`. -/
def compute_column_metadata_stats (cm : ColumnMetaRow) (tm : TableMetaRow) : MetaStats :=
  let data_type := pyUpper cm.data_type
  let base_type := baseTypeOf cm.data_type
  let has_comment := pyStrip cm.column_comment ≠ ""
  let row_count := tm.row_count.getD 0
  let null_percentage : ℚ := if cm.is_nullable = "NO" then 0 else 20
  let non_null_count : ℤ :=
    if cm.is_nullable = "NO" then row_count
    else if row_count ≠ 0 then (row_count * 4).tdiv 5 else 0
  let base : MetaStats :=
    { row_count := row_count, data_type := data_type, is_nullable := cm.is_nullable,
      has_comment := has_comment, source := "metadata_only",
      null_percentage := null_percentage, non_null_count := non_null_count,
      max_length := none, avg_length := none, min_length := none,
      numeric_precision := none, numeric_scale := none, is_semi_structured := false }
  if isTextBase base_type then
    match cm.character_maximum_length with
    | some n =>
      if n ≠ 0 then
        { base with max_length := some n,
                    avg_length := some (pyRound2 (min (n * (3/10) : ℚ) 5000)),
                    min_length := some 0 }
      else
        { base with max_length := some 16777216, avg_length := some 100, min_length := some 0 }
    | none =>
      { base with max_length := some 16777216, avg_length := some 100, min_length := some 0 }
  else if isNumericBase base_type then
    { base with numeric_precision := cm.numeric_precision, numeric_scale := cm.numeric_scale }
  else if SEMI_STRUCTURED_TYPES.contains base_type then
    { base with is_semi_structured := true }
  else
    base

/-- The view of a metadata-derived statistics dict as the statistics slice
read by `is_confirmed_candidate`: `compute_column_metadata_stats` writes a
flat `null_percentage` and (for text columns) a flat `avg_length`, and never
writes a nested `sparsity`, `content_type` or `json_structure` dict. -/
def MetaStats.toConfStats (s : MetaStats) : ConfStats :=
  { null_percentage := some s.null_percentage,
    sparsity_null_percentage := none,
    avg_length := s.avg_length,
    content_avg_length := none,
    is_natural_language := none,
    json_valid := none }

/-! ## Data-readiness scorers (0–5) -/

/-- The slice of a statistics dict read by the two data-readiness scorers:
`null_percentage`, `avg_length`, `max_length` (actual), `has_comment`
(default `False`), `is_nullable`.  `none` models an absent key. -/
structure StatsDict where
  null_percentage : Option ℚ
  avg_length : Option ℚ
  max_length : Option ℚ
  has_comment : Bool
  is_nullable : Option String
deriving DecidableEq

/-- The slice of a candidate dict read by `enhance_data_readiness_score`:
`candidate.get('max_length')` (the declared length). -/
structure CandidateMeta where
  max_length : Option ℚ
deriving DecidableEq

/-- `enhance_data_readiness_score(candidate, statistics)` of
`snowflake_full_analysis.py` (the sample-path scorer): `none` statistics model
a falsy (`None`/empty) dict, returning the minimal score `1.0`.  Component 3
(data efficiency) requires `max_length is not None and defined_length and defined_length > 0`. -/
def enhance_data_readiness_score (candidate : CandidateMeta)
    (statistics : Option StatsDict) : ℚ :=
  match statistics with
  | none => 1
  | some s =>
    let null_pct := s.null_percentage.getD 100
    let c1 : ℚ :=
      if null_pct ≤ 10 then 2 else if null_pct ≤ 30 then 3/2
      else if null_pct ≤ 50 then 1 else if null_pct ≤ 70 then 1/2 else 0
    let c2 : ℚ :=
      match s.avg_length with
      | some l =>
        if l ≥ 200 then 2 else if l ≥ 100 then 3/2
        else if l ≥ 50 then 1 else if l > 0 then 1/2 else 0
      | none => 0
    let c3 : ℚ :=
      match s.max_length, candidate.max_length with
      | some ml, some dl =>
        if 0 < dl then
          (let efficiency := ml / dl * 100
           if efficiency > 50 then 1 else if efficiency ≥ 25 then 1/2 else 0)
        else 0
      | _, _ => 0
    pyRound2 (c1 + c2 + c3)

/-- `enhance_data_readiness_score_metadata(candidate, column_stats)` of
`snowflake_ai_readiness_metadata.py` (the metadata-path scorer; the
`candidate` argument is unused by the source body).  Component 3 awards
`+1.0` for `has_comment and is_nullable == 'NO'`, `+0.5` for exactly one. -/
def enhance_data_readiness_score_metadata (_candidate : CandidateMeta)
    (column_stats : Option StatsDict) : ℚ :=
  match column_stats with
  | none => 1
  | some s =>
    let null_pct := s.null_percentage.getD 50
    let c1 : ℚ :=
      if null_pct ≤ 10 then 2 else if null_pct ≤ 30 then 3/2
      else if null_pct ≤ 50 then 1 else if null_pct ≤ 70 then 1/2 else 0
    let c2 : ℚ :=
      match s.avg_length with
      | some l =>
        if l ≥ 200 then 2 else if l ≥ 100 then 3/2
        else if l ≥ 50 then 1 else if l > 0 then 1/2 else 0
      | none => 0
    let c3 : ℚ :=
      if s.has_comment ∧ s.is_nullable = some "NO" then 1
      else if s.has_comment ∨ s.is_nullable = some "NO" then 1/2 else 0
    pyRound2 (min (c1 + c2 + c3) 5)

/-- Modelled from the spec: the NULL-rate component of the data-readiness
score ("+2 for null_percentage ≤ 10, stepped down to +0 above 70%"), written
as the spec's step function for comparison with the source scorers. -/
def readinessNullPoints (p : ℚ) : ℚ :=
  if p ≤ 10 then 2 else if p ≤ 30 then 3/2
  else if p ≤ 50 then 1 else if p ≤ 70 then 1/2 else 0

/-- Modelled from the spec: the content-length component of the
data-readiness score ("+2 for avg_length ≥ 200, stepped down, with +0.5 for
any positive length under 50"). -/
def readinessLengthPoints (l : Option ℚ) : ℚ :=
  match l with
  | some v =>
    if v ≥ 200 then 2 else if v ≥ 100 then 3/2
    else if v ≥ 50 then 1 else if v > 0 then 1/2 else 0
  | none => 0

/-- Modelled from the spec: the comment/nullability component of the
metadata-path data-readiness score ("+1 if both 'has comment' and 'not
nullable' hold, or +0.5 if only one holds"). -/
def readinessCommentPoints (has_comment : Bool) (is_nullable : Option String) : ℚ :=
  if has_comment ∧ is_nullable = some "NO" then 1
  else if has_comment ∨ is_nullable = some "NO" then 1/2 else 0

/-! ## Candidate scoring (`score_candidate`, Phase 5) and re-scoring (Phase 2E) -/

/-- The four-dimension scores dict of a candidate. -/
structure Scores where
  business_potential : ℚ
  data_readiness : ℚ
  metadata_quality : ℚ
  governance_risk : ℚ
deriving DecidableEq

/-- `sum(scores.values())`. -/
def Scores.total (s : Scores) : ℚ :=
  s.business_potential + s.data_readiness + s.metadata_quality + s.governance_risk

/-- One text profile entry as matched by `score_candidate`; `none` models an
absent key (`avg_length` defaults to `0`, `non_null_count` to `0`,
`total_rows_sampled` to `1`). -/
structure TextProfile where
  database : String
  schema : String
  table : String
  column : Option String
  avg_length : Option ℚ
  non_null_count : Option ℚ
  total_rows_sampled : Option ℚ
deriving DecidableEq

/-- The slice of a candidate dict read by `score_candidate`. -/
structure ScoreCandInput where
  database : String
  schema : String
  table : String
  column : Option String
  comment : Option String
  ai_feature : String
deriving DecidableEq

/-- `PII_INDICATORS` as hard-coded inside `score_candidate`. -/
def SCORE_PII_INDICATORS : List String :=
  ["EMAIL", "SSN", "PHONE", "ADDRESS", "NAME", "DOB", "BIRTH", "PASSWORD", "SECRET"]

/-- `score_candidate(candidate, text_profiles=None, variant_profiles=None)` of
`snowflake_full_analysis.py`: produces the candidate's `scores` dict and
`total_score = sum(scores.values())`.  The `variant_profiles` parameter is
never read by the source body.  An empty `text_profiles` list is falsy in
Python; it is handled identically here because searching an empty list finds
no profile. -/
def score_candidate (c : ScoreCandInput) (text_profiles : Option (List TextProfile))
    (_variant_profiles : Option (List TextProfile)) : Scores × ℚ :=
  let business_potential : ℚ :=
    if c.ai_feature = "Cortex LLM" then 4
    else if c.ai_feature = "Cortex ML (Forecasting/Anomaly)" then 5
    else if c.ai_feature = "Cortex Search / RAG" then 4
    else if c.ai_feature = "Cortex Extract" then 3
    else 3
  let data_readiness : ℚ :=
    match text_profiles with
    | none => 3
    | some ps =>
      match ps.find? (fun p =>
          p.database = c.database ∧ p.schema = c.schema ∧ p.table = c.table
            ∧ p.column = c.column) with
      | none => 3
      | some p =>
        let afterAvg : ℚ := if p.avg_length.getD 0 > 100 then 4 else 3
        if p.non_null_count.getD 0 ≠ 0 ∧ p.total_rows_sampled.getD 1 ≠ 0 then
          (let fill_rate := p.non_null_count.getD 0 / max (p.total_rows_sampled.getD 1) 1
           if fill_rate > 9/10 then 5 else afterAvg)
        else afterAvg
  let metadata_quality : ℚ := if c.comment.getD "" ≠ "" then 4 else 2
  let col_name := pyUpper (c.column.getD "")
  let table_name := pyUpper c.table
  let governance_risk : ℚ :=
    if SCORE_PII_INDICATORS.any (fun ind =>
        containsSub col_name ind || containsSub table_name ind) then 5 else 2
  let scores : Scores :=
    { business_potential := business_potential, data_readiness := data_readiness,
      metadata_quality := metadata_quality, governance_risk := governance_risk }
  (scores, scores.total)

/-- The Phase 2E re-scoring step of `run_agent` in
`snowflake_full_analysis.py`, for one candidate whose `statistics` dict is
truthy (the source skips candidates with `if stats:` false): a candidate with
no `scores` dict first gets the default `{business_potential: 3,
metadata_quality: 2, governance_risk: 2}`; then `data_readiness` is
overwritten with the metadata-based enhanced score and
`total_score = sum(scores.values())` is recomputed. -/
def phase2E_rescore (scores : Option Scores) (cand : CandidateMeta)
    (stats : StatsDict) : Scores × ℚ :=
  let enhanced := enhance_data_readiness_score_metadata cand (some stats)
  let base := scores.getD { business_potential := 3, data_readiness := 0,
                            metadata_quality := 2, governance_risk := 2 }
  let ns := { base with data_readiness := enhanced }
  (ns, ns.total)

/-! ## Candidate merge (`merge_candidates`) -/

/-- The slice of a candidate dict used by `merge_candidates`: the four key
components (each `candidate.get(field, '')`, with `none` modelling an absent
key) plus a payload (`reason`) that lets distinct candidates share a key. -/
structure MergeCand where
  database : String
  schema : String
  table : String
  column : Option String
  reason : String
deriving DecidableEq

/-- `f"{c.get('database','')}.{c.get('schema','')}.{c.get('table','')}.{c.get('column','')}"`. -/
def candKey (c : MergeCand) : String :=
  c.database ++ "." ++ c.schema ++ "." ++ c.table ++ "." ++ c.column.getD ""

/-- The loop of `merge_candidates`: walk the new candidates, appending those
whose key is not yet seen (and recording the key), counting duplicates as
already existed. -/
def mergeLoop (keys : List String) (acc : List MergeCand) (added updated : ℕ) :
    List MergeCand → List MergeCand × ℕ × ℕ
  | [] => (acc, added, updated)
  | c :: cs =>
    if keys.contains (candKey c) then mergeLoop keys acc added (updated + 1) cs
    else mergeLoop (candKey c :: keys) (acc ++ [c]) (added + 1) updated cs

/-- `merge_candidates(existing, new_candidates)` of
`snowflake_full_analysis.py`: merge by key `database.schema.table.column`,
first-seen wins; returns the merged list together with the reported
`(added, already_existed)` counts. -/
def merge_candidates (existing new_candidates : List MergeCand) :
    List MergeCand × ℕ × ℕ :=
  mergeLoop (existing.map candKey) existing 0 0 new_candidates

/-! ## LLM candidate classifier (`identify_llm_candidates`) -/

/-- The `text_indicators` list hard-coded in `identify_llm_candidates`. -/
def TEXT_INDICATORS : List String :=
  ["DESCRIPTION", "CONTENT", "MESSAGE", "NOTE", "SUMMARY",
   "DETAIL", "BODY", "TEXT", "COMMENT", "FEEDBACK", "REVIEW",
   "ABSTRACT", "BIO", "NARRATIVE", "TITLE", "SUBJECT"]

/-- One row of the columns query, restricted to the fields
`identify_llm_candidates` destructures (`db, schema, table, col_name, _,
data_type, max_len, _, _, _, comment`).  `none` models a SQL `NULL`. -/
structure ColumnsRow where
  database : String
  schema : String
  table : String
  col_name : Option String
  data_type : Option String
  max_len : Option ℤ
  comment : Option String
deriving DecidableEq

/-- A candidate record built by `identify_llm_candidates`. -/
structure LLMCandidate where
  database : String
  schema : String
  table : String
  column : Option String
  data_type : String
  max_length : Option ℤ
  comment : Option String
  ai_feature : String
  reason : String
deriving DecidableEq

/-- The per-row body of `identify_llm_candidates`: `none` when the row is
skipped (`if not data_type: continue`, or the classification condition
fails), `some` the appended candidate otherwise.
`is_long_text = max_len and max_len >= 500` is falsy for a missing or zero
`max_len`, which coincides with `max_len >= 500` being false. -/
def llmCandOfRow (r : ColumnsRow) : Option LLMCandidate :=
  match r.data_type with
  | none => none
  | some dt =>
    if dt = "" then none
    else
      let dtype_upper := pyUpper dt
      let col_upper := pyUpper (r.col_name.getD "")
      let is_text_type := ["VARCHAR", "TEXT", "STRING", "CHAR"].any
        fun t => containsSub dtype_upper t
      let is_long_text := match r.max_len with | some v => 500 ≤ v | none => false
      let has_text_indicator := TEXT_INDICATORS.any fun ind => containsSub col_upper ind
      if is_text_type && (is_long_text || has_text_indicator) then
        some { database := r.database, schema := r.schema, table := r.table,
               column := r.col_name, data_type := dt, max_length := r.max_len,
               comment := r.comment, ai_feature := "Cortex LLM",
               reason := "Text column (" ++ dt ++ ") - "
                 ++ (if is_long_text then "long text" else "semantic name") }
      else none

/-- `identify_llm_candidates(columns_data)` of `snowflake_full_analysis.py`:
the loop appends candidates in input order. -/
def identify_llm_candidates (columns_data : List ColumnsRow) : List LLMCandidate :=
  columns_data.filterMap llmCandOfRow

/-! ## Table-level AI readiness scoring
(`snowflake_ai_readiness_metadata.py`) -/

/-- Weight of the comments dimension. -/
def WEIGHT_COMMENTS : ℚ := 25

/-- Weight of the data-types dimension. -/
def WEIGHT_DATA_TYPES : ℚ := 20

/-- Weight of the freshness dimension. -/
def WEIGHT_FRESHNESS : ℚ := 25

/-- Weight of the clustering dimension. -/
def WEIGHT_CLUSTERING : ℚ := 15

/-- Weight of the constraints dimension. -/
def WEIGHT_CONSTRAINTS : ℚ := 15

/-- The slice of a table-metadata entry read by the table-level scorers:
`table_comment` (default `''`), `clustering_key` (default `''`), and
`last_altered` reduced to its age `(now - last_altered).days` in whole days —
`none` models a missing, falsy or unparseable `LAST_ALTERED` (the source
returns `0` for those; naive timestamps are made UTC-aware before the
subtraction, which the age model absorbs). -/
structure TableInfo where
  table_comment : String
  clustering_key : String
  last_altered_age_days : Option ℤ
deriving DecidableEq

/-- The slice of a column-metadata entry read by the table-level scorers. -/
structure ColumnInfo where
  column_name : String
  column_comment : String
  data_type : String
deriving DecidableEq

/-- `score_comments(table_meta, columns_meta)`: +40 for a non-empty table
comment, plus up to +60 scaled by the fraction of commented columns. -/
def score_comments (tm : TableInfo) (cols : List ColumnInfo) : ℚ :=
  let s1 : ℚ := if pyStrip tm.table_comment ≠ "" then 40 else 0
  let s2 : ℚ :=
    if cols ≠ [] then
      ((cols.countP fun c => pyStrip c.column_comment ≠ "" : ℚ) / (cols.length : ℚ)) * 60
    else 0
  min (pyRound2 (s1 + s2)) 100

/-- `score_data_types(columns_meta)`: full credit for supported base types,
half credit for semi-structured, none for unsupported. -/
def score_data_types (cols : List ColumnInfo) : ℚ :=
  if cols = [] then 0
  else
    let total := cols.length
    let fullCredit := cols.countP fun c =>
      let b := baseTypeOf c.data_type
      !(UNSUPPORTED_AI_TYPES.contains b) && !(SEMI_STRUCTURED_TYPES.contains b)
    let halfCredit := cols.countP fun c =>
      let b := baseTypeOf c.data_type
      !(UNSUPPORTED_AI_TYPES.contains b) && SEMI_STRUCTURED_TYPES.contains b
    let effective : ℚ := (fullCredit : ℚ) + (halfCredit : ℚ) * (1/2)
    let ratio := effective / (total : ℚ)
    min (pyRound2 (ratio * 100)) 100

/-- `score_freshness(table_meta, freshness_threshold_days=90)` (the second
parameter is never read by the source body): a step function of the age of
`LAST_ALTERED` in days, `0` when it is missing or unparseable. -/
def score_freshness (tm : TableInfo) : ℚ :=
  match tm.last_altered_age_days with
  | none => 0
  | some age_days =>
    if age_days ≤ 7 then 100
    else if age_days ≤ 30 then 80
    else if age_days ≤ 90 then 50
    else if age_days ≤ 180 then 25
    else 10

/-- `score_clustering(table_meta, storage_meta=None)`: `storage` is
`active_bytes` of the storage entry, `none` modelling a falsy (missing/empty)
`storage_meta` dict.  `active_bytes and active_bytes > 1_073_741_824` is
equivalent to `active_bytes > 2^30` alone. -/
def score_clustering (tm : TableInfo) (storage : Option ℤ) : ℚ :=
  let clustering_key := pyStrip tm.clustering_key
  let s1 : ℚ := if clustering_key ≠ "" then 70 else 0
  let s2 : ℚ :=
    match storage with
    | some active_bytes =>
      if active_bytes > 1073741824 ∧ clustering_key ≠ "" then 30
      else if active_bytes > 1073741824 then 10
      else 0
    | none => 0
  min (pyRound2 (s1 + s2)) 100

/-- `score_constraints(constraints_meta)`: the input is the list of
`constraint_type` values (default `''`); scoring is by presence of each
uppercased type. -/
def score_constraints (constraints : List String) : ℚ :=
  if constraints = [] then 0
  else
    let types_found := constraints.map pyUpper
    let s : ℚ := (if types_found.contains "PRIMARY KEY" then 50 else 0)
      + (if types_found.contains "FOREIGN KEY" then 30 else 0)
      + (if types_found.contains "UNIQUE" then 20 else 0)
    min (pyRound2 s) 100

/-- The score fields of the dict returned by
`compute_table_readiness_score`. -/
structure ReadinessScore where
  total_score : ℚ
  comments : ℚ
  data_types : ℚ
  freshness : ℚ
  clustering : ℚ
  constraints : ℚ
deriving DecidableEq

/-- `compute_table_readiness_score(...)` of
`snowflake_ai_readiness_metadata.py`, restricted to its score computation:
the five dimension scores and the weighted `total_score`, each passed through
`round(_, 2)` for the returned dict.  Missing lookup entries default to empty
dicts/lists, which the input types represent directly. -/
def compute_table_readiness_score (tm : TableInfo) (cols : List ColumnInfo)
    (constraints : List String) (storage : Option ℤ) : ReadinessScore :=
  let comments_score := score_comments tm cols
  let datatypes_score := score_data_types cols
  let freshness_score := score_freshness tm
  let clustering_score := score_clustering tm storage
  let constraints_score := score_constraints constraints
  let total :=
    comments_score * (WEIGHT_COMMENTS / 100)
    + datatypes_score * (WEIGHT_DATA_TYPES / 100)
    + freshness_score * (WEIGHT_FRESHNESS / 100)
    + clustering_score * (WEIGHT_CLUSTERING / 100)
    + constraints_score * (WEIGHT_CONSTRAINTS / 100)
  { total_score := pyRound2 total,
    comments := pyRound2 comments_score,
    data_types := pyRound2 datatypes_score,
    freshness := pyRound2 freshness_score,
    clustering := pyRound2 clustering_score,
    constraints := pyRound2 constraints_score }

/-! ## Helper lemmas about `pyRound2` -/

theorem pyRound2_nonneg (q : ℚ) (h : 0 ≤ q) : 0 ≤ pyRound2 q := by
  have h1 : (0 : ℤ) ≤ ⌊q * 100 + 1/2⌋ := by
    rw [Int.le_floor]
    push_cast
    linarith
  rw [pyRound2]
  have h2 : (0 : ℚ) ≤ (⌊q * 100 + 1/2⌋ : ℚ) := by exact_mod_cast h1
  linarith

theorem pyRound2_le_int (q : ℚ) (n : ℤ) (h : q ≤ (n : ℚ)) : pyRound2 q ≤ (n : ℚ) := by
  have h1 : ⌊q * 100 + 1/2⌋ ≤ ⌊(n : ℚ) * 100 + 1/2⌋ := by
    apply Int.floor_le_floor
    linarith
  have h2 : ⌊(n : ℚ) * 100 + 1/2⌋ = 100 * n := by
    have : (n : ℚ) * 100 + 1/2 = (100 * n : ℤ) + (1/2 : ℚ) := by push_cast; ring
    rw [this, Int.floor_int_add]
    norm_num
  rw [pyRound2]
  have h3 : (⌊q * 100 + 1/2⌋ : ℚ) ≤ ((100 * n : ℤ) : ℚ) := by
    exact_mod_cast h2 ▸ h1
  push_cast at h3
  linarith

theorem pyRound2_idem (q : ℚ) : pyRound2 (pyRound2 q) = pyRound2 q := by
  apply pyRound2_fixed _ ⌊q * 100 + 1/2⌋
  rw [pyRound2]
  field_simp

theorem pyRound2_hundred : pyRound2 100 = 100 :=
  pyRound2_fixed _ 10000 (by norm_num)

theorem pyRound2_min_avg (n : ℤ) :
    pyRound2 (min ((n : ℚ) * (3/10)) 5000) = min ((n : ℚ) * (3/10)) 5000 := by
  rcases le_total ((n : ℚ) * (3/10)) 5000 with h | h
  · rw [min_eq_left h]
    exact pyRound2_fixed _ (30 * n) (by push_cast; ring)
  · rw [min_eq_right h]
    exact pyRound2_fixed _ 500000 (by norm_num)

/-! ## C7 — metadata-estimated column statistics -/

/-- C7: metadata-estimated column statistics satisfy: `null_percentage` is
`0.0` for `is_nullable = 'NO'` and `20.0` otherwise; for text columns with a
(positive) declared max length, `avg_length = min(declared_max_length × 0.3,
5000)`; for text columns without a declared length, `avg_length = 100.0` and
`max_length = 16777216`; and the result is tagged `source = metadata_only`. -/
theorem metadata_stats_estimation (cm : ColumnMetaRow) (tm : TableMetaRow) :
    (cm.is_nullable = "NO" → (compute_column_metadata_stats cm tm).null_percentage = 0)
    ∧ (cm.is_nullable ≠ "NO" → (compute_column_metadata_stats cm tm).null_percentage = 20)
    ∧ (∀ n : ℤ, isTextBase (baseTypeOf cm.data_type) = true →
        cm.character_maximum_length = some n → 0 < n →
        (compute_column_metadata_stats cm tm).avg_length
            = some (min ((n : ℚ) * (3/10)) 5000)
          ∧ (compute_column_metadata_stats cm tm).max_length = some n)
    ∧ (isTextBase (baseTypeOf cm.data_type) = true →
        cm.character_maximum_length = none →
        (compute_column_metadata_stats cm tm).avg_length = some 100
          ∧ (compute_column_metadata_stats cm tm).max_length = some 16777216)
    ∧ (compute_column_metadata_stats cm tm).source = "metadata_only" := by
  refine ⟨?_, ?_, ?_, ?_, ?_⟩
  · intro h
    simp only [compute_column_metadata_stats]
    repeat' split
    all_goals simp [h]
  · intro h
    simp only [compute_column_metadata_stats]
    repeat' split
    all_goals simp [h]
  · intro n htext hlen hpos
    have hne : n ≠ 0 := by omega
    simp only [compute_column_metadata_stats, htext, if_true, hlen]
    simp [hne, pyRound2_min_avg]
  · intro htext hlen
    simp only [compute_column_metadata_stats, htext, if_true, hlen]
    simp
  · simp only [compute_column_metadata_stats]
    repeat' split
    all_goals simp

/-- Witness for C7 at a concrete `VARCHAR(2000)` NOT NULL column. -/
theorem metadata_stats_estimation_witness :
    (compute_column_metadata_stats
        ⟨"VARCHAR(2000)", some 2000, "NO", "c", none, none⟩ ⟨some 100⟩).null_percentage = 0
    ∧ (compute_column_metadata_stats
        ⟨"VARCHAR(2000)", some 2000, "NO", "c", none, none⟩ ⟨some 100⟩).avg_length = some 600
    ∧ (compute_column_metadata_stats
        ⟨"VARCHAR(2000)", some 2000, "NO", "c", none, none⟩ ⟨some 100⟩).source
        = "metadata_only" := by
  obtain ⟨h1, _, h3, _, h5⟩ := metadata_stats_estimation
    ⟨"VARCHAR(2000)", some 2000, "NO", "c", none, none⟩ ⟨some 100⟩
  have htext : isTextBase (baseTypeOf
      (ColumnMetaRow.data_type ⟨"VARCHAR(2000)", some 2000, "NO", "c", none, none⟩)) = true := by
    simp [isTextBase, baseTypeOf, pyUpper, pyStrip, upToParen, TEXT_TYPES,
      containsSub, charsContain, charsStartWith]
  obtain ⟨ha, _⟩ := h3 2000 htext rfl (by norm_num)
  refine ⟨h1 rfl, ?_, h5⟩
  rw [ha]
  norm_num

/-! ## C5 — metadata-mode NOT NULL columns are never confirmed -/

/-- C5: a candidate whose flat `null_percentage` is `0.0` with no nested
`sparsity` entry — exactly what `compute_column_metadata_stats` produces for a
NOT NULL column — is read through the truthiness `or` chain, falls back to the
default `100`, and is therefore never confirmed, with a high-sparsity reason
first. -/
theorem metadata_notnull_never_confirmed (cm : ColumnMetaRow) (tm : TableMetaRow)
    (c : ConfCandidate) (hnn : cm.is_nullable = "NO")
    (hstats : c.statistics = (compute_column_metadata_stats cm tm).toConfStats) :
    (is_confirmed_candidate c).1 = false
    ∧ (is_confirmed_candidate c).2.head? = some (Reason.highSparsity 100) := by
  have hnp : (compute_column_metadata_stats cm tm).null_percentage = 0 := by
    simp only [compute_column_metadata_stats]
    repeat' split
    all_goals simp [hnn]
  have hsp : sparsityNullPct c.statistics = 100 := by
    rw [hstats]
    simp [MetaStats.toConfStats, sparsityNullPct, hnp]
  have hchk : sparsityCheck c.statistics = (false, [Reason.highSparsity 100]) := by
    simp only [sparsityCheck, hsp]
    norm_num [CONFIRM_MAX_SPARSITY]
  constructor
  · simp [is_confirmed_candidate, hchk]
  · simp [is_confirmed_candidate, hchk]

/-- Witness for C5: a concrete NOT NULL `VARCHAR` column scored in
metadata-estimated mode is not confirmed. -/
theorem metadata_notnull_never_confirmed_witness :
    (is_confirmed_candidate ⟨"Cortex LLM",
      (compute_column_metadata_stats
        ⟨"VARCHAR", none, "NO", "", none, none⟩ ⟨some 10⟩).toConfStats,
      some 5⟩).1 = false :=
  (metadata_notnull_never_confirmed
    ⟨"VARCHAR", none, "NO", "", none, none⟩ ⟨some 10⟩ _ rfl rfl).1

/-! ## C9 — freshness step function -/

/-- C9: the freshness dimension score is the exact step function of the age
of `last_altered` in days — `≤7 → 100`, `≤30 → 80`, `≤90 → 50`, `≤180 → 25`,
`>180 → 10`, missing/unparseable → `0`; in particular age 5 scores 100 and
age 45 scores 50. -/
theorem freshness_step_function (tm : TableInfo) (d : ℤ) :
    (tm.last_altered_age_days = none → score_freshness tm = 0)
    ∧ (tm.last_altered_age_days = some d →
        ((d ≤ 7 → score_freshness tm = 100)
         ∧ (7 < d → d ≤ 30 → score_freshness tm = 80)
         ∧ (30 < d → d ≤ 90 → score_freshness tm = 50)
         ∧ (90 < d → d ≤ 180 → score_freshness tm = 25)
         ∧ (180 < d → score_freshness tm = 10)))
    ∧ (tm.last_altered_age_days = some 5 → score_freshness tm = 100)
    ∧ (tm.last_altered_age_days = some 45 → score_freshness tm = 50) := by
  refine ⟨?_, ?_, ?_, ?_⟩
  · intro h
    simp [score_freshness, h]
  · intro h
    simp only [score_freshness, h]
    refine ⟨?_, ?_, ?_, ?_, ?_⟩ <;> intros <;> split_ifs <;> first | rfl | omega
  · intro h
    simp [score_freshness, h]
  · intro h
    norm_num [score_freshness, h]

/-- Witness for C9 at the spec's Scenario D inputs. -/
theorem freshness_step_function_witness :
    score_freshness ⟨"", "", some 5⟩ = 100
    ∧ score_freshness ⟨"", "", some 45⟩ = 50
    ∧ score_freshness ⟨"", "", none⟩ = 0 :=
  ⟨(freshness_step_function ⟨"", "", some 5⟩ 5).2.2.1 rfl,
   (freshness_step_function ⟨"", "", some 45⟩ 45).2.2.2 rfl,
   (freshness_step_function ⟨"", "", none⟩ 0).1 rfl⟩

/-! ## C4 — sparsity boundary is strict greater-than -/

/-- C4: with `CONFIRM_MAX_SPARSITY = 50` the sparsity comparison is strict:
`null_percentage = 50.0` exactly passes the sparsity check (and the candidate
is confirmed whenever every other applicable check passes), while
`null_percentage = 50.01` fails it and the candidate is not confirmed. -/
theorem sparsity_boundary_strict (c : ConfCandidate) :
    (c.statistics.null_percentage = some 50 →
      sparsityCheck c.statistics = (true, [Reason.goodCompleteness 50])
      ∧ ((contentCheck c.ai_feature c.statistics).1 = true →
          (structureCheck c.ai_feature c.statistics).1 = true →
          (readinessCheck (c.data_readiness.getD 0)).1 = true →
          (is_confirmed_candidate c).1 = true))
    ∧ (c.statistics.null_percentage = some (5001/100) →
        (is_confirmed_candidate c).1 = false) := by
  constructor
  · intro h
    have hp : sparsityNullPct c.statistics = 50 := by
      simp [sparsityNullPct, h]
    have hchk : sparsityCheck c.statistics = (true, [Reason.goodCompleteness 50]) := by
      simp only [sparsityCheck, hp]
      norm_num [CONFIRM_MAX_SPARSITY]
    refine ⟨hchk, ?_⟩
    intro h2 h3 h4
    simp [is_confirmed_candidate, hchk, h2, h3, h4]
  · intro h
    have hp : sparsityNullPct c.statistics = 5001/100 := by
      simp only [sparsityNullPct, h]
      norm_num
    have hchk : (sparsityCheck c.statistics).1 = false := by
      simp only [sparsityCheck, hp]
      norm_num [CONFIRM_MAX_SPARSITY]
    simp [is_confirmed_candidate, hchk]

/-- Witness for C4: a concrete LLM candidate with `null_percentage = 50.0`
(other checks passing) is confirmed; the same candidate at `50.01` is not. -/
theorem sparsity_boundary_strict_witness :
    (is_confirmed_candidate
      ⟨"Cortex LLM", ⟨some 50, none, some 250, none, none, none⟩, some 4⟩).1 = true
    ∧ (is_confirmed_candidate
      ⟨"Cortex LLM", ⟨some (5001/100), none, some 250, none, none, none⟩, some 4⟩).1
        = false := by
  constructor
  · refine ((sparsity_boundary_strict
      ⟨"Cortex LLM", ⟨some 50, none, some 250, none, none, none⟩, some 4⟩).1 rfl).2
      ?_ ?_ ?_
    · simp [contentCheck, contentAvgLen, CONFIRM_MIN_AVG_TEXT_LENGTH]
      norm_num
    · simp [structureCheck]
    · simp [readinessCheck, CONFIRM_MIN_DATA_READINESS]
      norm_num
  · exact (sparsity_boundary_strict
      ⟨"Cortex LLM", ⟨some (5001/100), none, some 250, none, none, none⟩, some 4⟩).2 rfl

/-! ## C3 — confirmation error handling -/

/-- Every reason produced by the sparsity check belongs to check category 0. -/
theorem sparsityCheck_cat (s : ConfStats) : ∀ r ∈ (sparsityCheck s).2, r.cat = 0 := by
  intro r hr
  simp only [sparsityCheck] at hr
  split_ifs at hr <;> simp at hr <;> simp [hr, Reason.cat]

/-- Every reason produced by the content-quality check belongs to category 1. -/
theorem contentCheck_cat (ai : String) (s : ConfStats) :
    ∀ r ∈ (contentCheck ai s).2, r.cat = 1 := by
  intro r hr
  by_cases hai : ai = "Cortex LLM" ∨ ai = "Cortex Search / RAG"
  · simp only [contentCheck, if_pos hai, List.mem_append] at hr
    rcases hnl : s.is_natural_language with _ | b
    · rw [hnl] at hr
      split_ifs at hr <;> simp at hr <;> (obtain rfl := hr; rfl)
    · rw [hnl] at hr
      cases b <;> split_ifs at hr <;> simp at hr <;>
        first
          | (obtain rfl := hr; rfl)
          | (rcases hr with rfl | rfl <;> rfl)
  · simp [contentCheck, if_neg hai] at hr

/-- Every reason produced by the structure-validity check belongs to category 2. -/
theorem structureCheck_cat (ai : String) (s : ConfStats) :
    ∀ r ∈ (structureCheck ai s).2, r.cat = 2 := by
  intro r hr
  by_cases hai : ai = "Cortex Extract"
  · simp only [structureCheck, if_pos hai] at hr
    rcases hj : s.json_valid with _ | b
    · rw [hj] at hr
      simp at hr
    · rw [hj] at hr
      cases b <;> simp at hr <;> simp [hr, Reason.cat]
  · simp [structureCheck, if_neg hai] at hr

/-- Every reason produced by the readiness check belongs to category 3. -/
theorem readinessCheck_cat (dr : ℚ) : ∀ r ∈ (readinessCheck dr).2, r.cat = 3 := by
  intro r hr
  simp only [readinessCheck] at hr
  split_ifs at hr <;> simp at hr <;> simp [hr, Reason.cat]

/-- A list of reasons of one category is sorted by category. -/
theorem pairwise_of_const_cat (l : List Reason) (k : ℕ) (h : ∀ r ∈ l, r.cat = k) :
    l.Pairwise (fun a b => Reason.cat a ≤ Reason.cat b) := by
  induction l with
  | nil => simp
  | cons a as ih =>
    simp only [List.pairwise_cons]
    constructor
    · intro b hb
      rw [h a (by simp), h b (by simp [hb])]
    · exact ih fun r hr => h r (by simp [hr])

/-- C3 (amended): confirmation evaluation is total (never raises); a missing
`null_percentage` (flat and nested) defaults to `100` and fails the sparsity
check with a high-sparsity reason, and missing scores default
`data_readiness` to `0` and fail the readiness check with a reason; but the
content-length/natural-language and JSON-structure checks are silently
skipped — no failure, no reason — when their statistics are absent; the
reasons that are appended always appear in the fixed order sparsity → content
quality → structure validity → readiness. -/
theorem confirmation_error_handling (c : ConfCandidate) :
    ((is_confirmed_candidate c).2).Pairwise (fun a b => Reason.cat a ≤ Reason.cat b)
    ∧ (c.statistics.null_percentage = none →
        c.statistics.sparsity_null_percentage = none →
        (is_confirmed_candidate c).1 = false
        ∧ Reason.highSparsity 100 ∈ (is_confirmed_candidate c).2)
    ∧ (c.data_readiness = none →
        (is_confirmed_candidate c).1 = false
        ∧ Reason.lowReadiness 0 ∈ (is_confirmed_candidate c).2)
    ∧ (c.statistics.avg_length = none → c.statistics.content_avg_length = none →
        c.statistics.is_natural_language = none →
        contentCheck c.ai_feature c.statistics = (true, []))
    ∧ (c.statistics.json_valid = none → structureCheck c.ai_feature c.statistics = (true, [])) := by
  refine ⟨?_, ?_, ?_, ?_, ?_⟩
  · show (sparsityCheck c.statistics).2 ++ (contentCheck c.ai_feature c.statistics).2
      ++ (structureCheck c.ai_feature c.statistics).2
      ++ (readinessCheck (c.data_readiness.getD 0)).2 |>.Pairwise _
    rw [List.append_assoc, List.append_assoc]
    rw [List.pairwise_append]
    refine ⟨pairwise_of_const_cat _ 0 (sparsityCheck_cat c.statistics), ?_, ?_⟩
    · rw [List.pairwise_append]
      refine ⟨pairwise_of_const_cat _ 1 (contentCheck_cat c.ai_feature c.statistics), ?_, ?_⟩
      · rw [List.pairwise_append]
        refine ⟨pairwise_of_const_cat _ 2 (structureCheck_cat c.ai_feature c.statistics),
          pairwise_of_const_cat _ 3 (readinessCheck_cat _), ?_⟩
        intro a ha b hb
        rw [structureCheck_cat _ _ a ha, readinessCheck_cat _ b hb]
        omega
      · intro a ha b hb
        rw [contentCheck_cat _ _ a ha]
        rcases List.mem_append.mp hb with hb | hb
        · rw [structureCheck_cat _ _ b hb]; omega
        · rw [readinessCheck_cat _ b hb]; omega
    · intro a ha b hb
      rw [sparsityCheck_cat _ a ha]
      omega
  · intro h1 h2
    have hp : sparsityNullPct c.statistics = 100 := by
      simp [sparsityNullPct, h1, h2]
    have hchk : sparsityCheck c.statistics = (false, [Reason.highSparsity 100]) := by
      simp only [sparsityCheck, hp]
      norm_num [CONFIRM_MAX_SPARSITY]
    constructor
    · simp [is_confirmed_candidate, hchk]
    · simp [is_confirmed_candidate, hchk]
  · intro h
    have hchk : readinessCheck (c.data_readiness.getD 0) = (false, [Reason.lowReadiness 0]) := by
      simp only [h, Option.getD_none, readinessCheck]
      norm_num [CONFIRM_MIN_DATA_READINESS]
    constructor
    · simp [is_confirmed_candidate, hchk]
    · simp [is_confirmed_candidate, hchk]
  · intro h1 h2 h3
    simp [contentCheck, contentAvgLen, h1, h2, h3]
  · intro h
    simp [structureCheck, h]

/-- Counterexample for C3 as stated: an LLM candidate whose `avg_length` and
natural-language statistics are all missing is nevertheless confirmed, and no
content-check reason is appended — the applicable content-quality check
passes silently instead of failing with a descriptive reason. -/
theorem confirmation_missing_stat_passes_silently :
    is_confirmed_candidate
        ⟨"Cortex LLM", ⟨some 5, none, none, none, none, none⟩, some 4⟩
      = (true, [Reason.goodCompleteness 95, Reason.goodReadiness 4]) := by
  simp [is_confirmed_candidate, sparsityCheck, contentCheck, structureCheck,
    readinessCheck, sparsityNullPct, contentAvgLen, CONFIRM_MAX_SPARSITY,
    CONFIRM_MIN_AVG_TEXT_LENGTH, CONFIRM_MIN_DATA_READINESS]
  norm_num

/-- Witness for C3 (amended) at concrete candidates. -/
theorem confirmation_error_handling_witness :
    (is_confirmed_candidate ⟨"", ⟨none, none, none, none, none, none⟩, none⟩).1 = false
    ∧ Reason.highSparsity 100
        ∈ (is_confirmed_candidate ⟨"", ⟨none, none, none, none, none, none⟩, none⟩).2
    ∧ contentCheck "Cortex LLM" ⟨some 5, none, none, none, none, none⟩ = (true, []) := by
  obtain ⟨_, h2, _, _, _⟩ :=
    confirmation_error_handling ⟨"", ⟨none, none, none, none, none, none⟩, none⟩
  obtain ⟨ha, hb⟩ := h2 rfl rfl
  exact ⟨ha, hb,
    (confirmation_error_handling
      ⟨"Cortex LLM", ⟨some 5, none, none, none, none, none⟩, some 4⟩).2.2.2.1
      rfl rfl rfl⟩

/-! ## C2 — the two data-readiness scorers -/

/-- `pyRound2` is the identity on half-integers, the only values the
readiness components take. -/
theorem pyRound2_half (n : ℤ) : pyRound2 ((n : ℚ) / 2) = (n : ℚ) / 2 :=
  pyRound2_fixed _ (50 * n) (by push_cast; ring)

/-- The NULL-rate component is a half-integer in `[0, 2]`. -/
theorem readinessNullPoints_half (p : ℚ) :
    ∃ k : ℤ, readinessNullPoints p = (k : ℚ) / 2
      ∧ 0 ≤ readinessNullPoints p ∧ readinessNullPoints p ≤ 2 := by
  unfold readinessNullPoints
  split_ifs
  exacts [⟨4, by norm_num⟩, ⟨3, by norm_num⟩, ⟨2, by norm_num⟩,
    ⟨1, by norm_num⟩, ⟨0, by norm_num⟩]

/-- The content-length component is a half-integer in `[0, 2]`. -/
theorem readinessLengthPoints_half (l : Option ℚ) :
    ∃ k : ℤ, readinessLengthPoints l = (k : ℚ) / 2
      ∧ 0 ≤ readinessLengthPoints l ∧ readinessLengthPoints l ≤ 2 := by
  rcases l with _ | v
  · exact ⟨0, by norm_num [readinessLengthPoints]⟩
  · simp only [readinessLengthPoints]
    split_ifs
    exacts [⟨4, by norm_num⟩, ⟨3, by norm_num⟩, ⟨2, by norm_num⟩,
      ⟨1, by norm_num⟩, ⟨0, by norm_num⟩]

/-- The comment/nullability component is a half-integer in `[0, 1]`. -/
theorem readinessCommentPoints_half (hc : Bool) (inl : Option String) :
    ∃ k : ℤ, readinessCommentPoints hc inl = (k : ℚ) / 2
      ∧ 0 ≤ readinessCommentPoints hc inl ∧ readinessCommentPoints hc inl ≤ 1 := by
  unfold readinessCommentPoints
  split_ifs
  exacts [⟨2, by norm_num⟩, ⟨1, by norm_num⟩, ⟨0, by norm_num⟩]

/-- C2 (amended): the NULL-rate and content-length components are computed
identically by the sample-path scorer (`enhance_data_readiness_score`) and
the metadata-path scorer (`enhance_data_readiness_score_metadata`), but the
third component differs — the metadata path awards +1.0 for `has_comment`
and `not nullable` together (+0.5 for exactly one), while the sample path
awards its third component for actual-vs-declared length efficiency (zero
when no actual `max_length` statistic exists); on the spec's stats
`{null_percentage: 5, avg_length: 250, has_comment: true, is_nullable: NO}`
the metadata-path score is exactly `5.0` and such a candidate is confirmed. -/
theorem readiness_score_components (s : StatsDict) (cand : CandidateMeta) (p : ℚ) :
    (s.null_percentage = some p → s.max_length = none →
      enhance_data_readiness_score cand (some s)
        = readinessNullPoints p + readinessLengthPoints s.avg_length)
    ∧ (s.null_percentage = some p →
      enhance_data_readiness_score_metadata cand (some s)
        = readinessNullPoints p + readinessLengthPoints s.avg_length
          + readinessCommentPoints s.has_comment s.is_nullable)
    ∧ enhance_data_readiness_score_metadata ⟨none⟩
        (some ⟨some 5, some 250, none, true, some "NO"⟩) = 5
    ∧ (is_confirmed_candidate
        ⟨"Cortex LLM", ⟨some 5, none, some 250, none, none, none⟩, some 5⟩).1 = true := by
  rcases s with ⟨np, al, ml, hcom, inul⟩
  refine ⟨?_, ?_, ?_, ?_⟩
  · intro hp hm
    simp only at hp hm
    subst hp hm
    have heq : enhance_data_readiness_score cand (some ⟨some p, al, none, hcom, inul⟩)
        = pyRound2 (readinessNullPoints p + readinessLengthPoints al + 0) := rfl
    obtain ⟨k1, e1, _, _⟩ := readinessNullPoints_half p
    obtain ⟨k2, e2, _, _⟩ := readinessLengthPoints_half al
    rw [heq, add_zero, e1, e2]
    have hsum : (k1 : ℚ) / 2 + (k2 : ℚ) / 2 = ((k1 + k2 : ℤ) : ℚ) / 2 := by
      push_cast; ring
    rw [hsum, pyRound2_half]
  · intro hp
    simp only at hp
    subst hp
    have heq : enhance_data_readiness_score_metadata cand (some ⟨some p, al, ml, hcom, inul⟩)
        = pyRound2 (min (readinessNullPoints p + readinessLengthPoints al
            + readinessCommentPoints hcom inul) 5) := rfl
    obtain ⟨k1, e1, lb1, ub1⟩ := readinessNullPoints_half p
    obtain ⟨k2, e2, lb2, ub2⟩ := readinessLengthPoints_half al
    obtain ⟨k3, e3, lb3, ub3⟩ := readinessCommentPoints_half hcom inul
    have hle : readinessNullPoints p + readinessLengthPoints al
        + readinessCommentPoints hcom inul ≤ 5 := by linarith
    rw [heq, min_eq_left hle, e1, e2, e3]
    have hsum : (k1 : ℚ) / 2 + (k2 : ℚ) / 2 + (k3 : ℚ) / 2
        = ((k1 + k2 + k3 : ℤ) : ℚ) / 2 := by push_cast; ring
    rw [hsum, pyRound2_half]
  · simp [enhance_data_readiness_score_metadata, pyRound2]
    norm_num
  · simp [is_confirmed_candidate, sparsityCheck, contentCheck, structureCheck,
      readinessCheck, sparsityNullPct, contentAvgLen, CONFIRM_MAX_SPARSITY,
      CONFIRM_MIN_AVG_TEXT_LENGTH, CONFIRM_MIN_DATA_READINESS]
    norm_num

/-- Counterexample for C2 as stated: on the claim's own statistics the two
scorers disagree — the sample-path scorer returns `4.0` (its third component
needs an actual `max_length` statistic), the metadata-path scorer `5.0` — so
there is no single scoring function applied regardless of provenance. -/
theorem readiness_scorers_differ :
    enhance_data_readiness_score ⟨none⟩
        (some ⟨some 5, some 250, none, true, some "NO"⟩) = 4
    ∧ enhance_data_readiness_score_metadata ⟨none⟩
        (some ⟨some 5, some 250, none, true, some "NO"⟩) = 5
    ∧ enhance_data_readiness_score ⟨none⟩
        (some ⟨some 5, some 250, none, true, some "NO"⟩)
      ≠ enhance_data_readiness_score_metadata ⟨none⟩
        (some ⟨some 5, some 250, none, true, some "NO"⟩) := by
  refine ⟨?_, ?_, ?_⟩ <;>
    simp [enhance_data_readiness_score, enhance_data_readiness_score_metadata, pyRound2] <;>
    norm_num

/-- Witness for C2 (amended) at a concrete statistics dict. -/
theorem readiness_score_components_witness :
    enhance_data_readiness_score ⟨none⟩
        (some ⟨some 20, some 120, none, false, none⟩) = 3 := by
  have h := (readiness_score_components ⟨some 20, some 120, none, false, none⟩
    ⟨none⟩ 20).1 rfl rfl
  rw [h]
  norm_num [readinessNullPoints, readinessLengthPoints]

/-! ## C1 — total score invariant -/

/-- The metadata-path scorer decomposes into the three step components with a
cap at 5. -/
theorem enhance_metadata_score_eq (cand : CandidateMeta) (s : StatsDict) :
    enhance_data_readiness_score_metadata cand (some s)
      = pyRound2 (min (readinessNullPoints (s.null_percentage.getD 50)
          + readinessLengthPoints s.avg_length
          + readinessCommentPoints s.has_comment s.is_nullable) 5) := rfl

/-- The metadata-path readiness score always lies in `[0, 5]`. -/
theorem enhance_metadata_score_bounds (cand : CandidateMeta) (stats : Option StatsDict) :
    0 ≤ enhance_data_readiness_score_metadata cand stats
    ∧ enhance_data_readiness_score_metadata cand stats ≤ 5 := by
  rcases stats with _ | s
  · norm_num [enhance_data_readiness_score_metadata]
  · rw [enhance_metadata_score_eq]
    obtain ⟨k1, e1, lb1, ub1⟩ := readinessNullPoints_half (s.null_percentage.getD 50)
    obtain ⟨k2, e2, lb2, ub2⟩ := readinessLengthPoints_half s.avg_length
    obtain ⟨k3, e3, lb3, ub3⟩ := readinessCommentPoints_half s.has_comment s.is_nullable
    have hle : readinessNullPoints (s.null_percentage.getD 50)
        + readinessLengthPoints s.avg_length
        + readinessCommentPoints s.has_comment s.is_nullable ≤ 5 := by linarith
    rw [min_eq_left hle]
    constructor
    · exact pyRound2_nonneg _ (by linarith)
    · have := pyRound2_le_int (readinessNullPoints (s.null_percentage.getD 50)
        + readinessLengthPoints s.avg_length
        + readinessCommentPoints s.has_comment s.is_nullable) 5 (by push_cast; linarith)
      push_cast at this
      linarith

/-- Every dimension score assigned by `score_candidate` lies in `[0, 5]`
(their actual values are `2..5`). -/
theorem score_candidate_dim_bounds (c : ScoreCandInput)
    (tp vp : Option (List TextProfile)) :
    (0 ≤ (score_candidate c tp vp).1.business_potential
      ∧ (score_candidate c tp vp).1.business_potential ≤ 5)
    ∧ (0 ≤ (score_candidate c tp vp).1.data_readiness
      ∧ (score_candidate c tp vp).1.data_readiness ≤ 5)
    ∧ (0 ≤ (score_candidate c tp vp).1.metadata_quality
      ∧ (score_candidate c tp vp).1.metadata_quality ≤ 5)
    ∧ (0 ≤ (score_candidate c tp vp).1.governance_risk
      ∧ (score_candidate c tp vp).1.governance_risk ≤ 5) := by
  simp only [score_candidate]
  refine ⟨?_, ?_, ?_, ?_⟩
  · split_ifs <;> norm_num
  · rcases tp with _ | ps
    · norm_num
    · rcases h : ps.find? (fun p =>
          p.database = c.database ∧ p.schema = c.schema ∧ p.table = c.table
            ∧ p.column = c.column) with _ | prof
      all_goals simp only [h]
      · norm_num
      · split_ifs <;> norm_num
  · split_ifs <;> norm_num
  · split_ifs <;> norm_num

/-- The three non-readiness dimension scores of a previously scored
candidate lie in `[0, 5]` (vacuous when the candidate has no scores yet);
`score_candidate` establishes this for every candidate it scores. -/
def priorScoresOk : Option Scores → Prop
  | none => True
  | some sc =>
      (0 ≤ sc.business_potential ∧ sc.business_potential ≤ 5)
      ∧ (0 ≤ sc.metadata_quality ∧ sc.metadata_quality ≤ 5)
      ∧ (0 ≤ sc.governance_risk ∧ sc.governance_risk ≤ 5)

/-- C1: whenever scores are assigned — by `score_candidate` or by the Phase
2E re-scoring pass that overwrites `data_readiness` — `total_score` is
recomputed as `sum(scores.values())` and lies in `[0, 20]`; these are the
only sites that write `total_score`, so it is never mutated independently of
the scores. -/
theorem total_score_invariant (c : ScoreCandInput) (tp vp : Option (List TextProfile))
    (prior : Option Scores) (cand : CandidateMeta) (stats : StatsDict)
    (h : priorScoresOk prior) :
    ((score_candidate c tp vp).2 = (score_candidate c tp vp).1.total
      ∧ 0 ≤ (score_candidate c tp vp).2 ∧ (score_candidate c tp vp).2 ≤ 20)
    ∧ ((phase2E_rescore prior cand stats).2 = (phase2E_rescore prior cand stats).1.total
      ∧ 0 ≤ (phase2E_rescore prior cand stats).2
      ∧ (phase2E_rescore prior cand stats).2 ≤ 20) := by
  constructor
  · obtain ⟨⟨b1, b2⟩, ⟨d1, d2⟩, ⟨m1, m2⟩, ⟨g1, g2⟩⟩ := score_candidate_dim_bounds c tp vp
    have ht : (score_candidate c tp vp).2 = (score_candidate c tp vp).1.total := rfl
    refine ⟨ht, ?_, ?_⟩ <;> rw [ht, Scores.total] <;> linarith
  · have he := enhance_metadata_score_bounds cand (some stats)
    have ht : (phase2E_rescore prior cand stats).2
        = (phase2E_rescore prior cand stats).1.total := rfl
    refine ⟨ht, ?_, ?_⟩ <;> rw [ht] <;>
      rcases prior with _ | sc <;>
        simp only [phase2E_rescore, Scores.total, Option.getD_none, Option.getD_some] <;>
        [linarith; (obtain ⟨⟨b1, b2⟩, ⟨m1, m2⟩, ⟨g1, g2⟩⟩ := h; linarith);
         linarith; (obtain ⟨⟨b1, b2⟩, ⟨m1, m2⟩, ⟨g1, g2⟩⟩ := h; linarith)]

/-- Witness for C1 at a concrete candidate and re-scoring input. -/
theorem total_score_invariant_witness :
    (score_candidate ⟨"DB", "SCH", "TBL", some "DESCRIPTION", none, "Cortex LLM"⟩
        none none).2
      = (score_candidate ⟨"DB", "SCH", "TBL", some "DESCRIPTION", none, "Cortex LLM"⟩
        none none).1.total
    ∧ (score_candidate ⟨"DB", "SCH", "TBL", some "DESCRIPTION", none, "Cortex LLM"⟩
        none none).2 ≤ 20
    ∧ 0 ≤ (phase2E_rescore (some ⟨4, 3, 2, 2⟩) ⟨none⟩
        ⟨some 5, some 250, none, true, some "NO"⟩).2
    ∧ (phase2E_rescore (some ⟨4, 3, 2, 2⟩) ⟨none⟩
        ⟨some 5, some 250, none, true, some "NO"⟩).2 ≤ 20 := by
  obtain ⟨⟨ha, _, hb⟩, ⟨_, hc, hd⟩⟩ := total_score_invariant
    ⟨"DB", "SCH", "TBL", some "DESCRIPTION", none, "Cortex LLM"⟩ none none
    (some ⟨4, 3, 2, 2⟩) ⟨none⟩ ⟨some 5, some 250, none, true, some "NO"⟩
    (by norm_num [priorScoresOk])
  exact ⟨ha, hb, hc, hd⟩

/-! ## C6 — the LLM classifier rule -/

/-- Every character list starts with itself. -/
theorem charsStartWith_refl (l : List Char) : charsStartWith l l = true := by
  induction l with
  | nil => rfl
  | cons h hs ih => simp [charsStartWith, ih]

/-- Every character list contains itself. -/
theorem charsContain_self (l : List Char) : charsContain l l = true := by
  cases l with
  | nil => rfl
  | cons h hs => simp [charsContain, charsStartWith_refl]

/-- A string contains its own suffix. -/
theorem containsSub_append_left (a b : String) :
    containsSub (a ++ b) b = true := by
  rw [containsSub, String.data_append]
  exact charsContain_append_right _ _ _ (charsContain_self _)

/-- C6: `identify_llm_candidates` flags a row iff its declared type is
textual (contains `VARCHAR`/`TEXT`/`STRING`/`CHAR`) and either its declared
max length is ≥ 500 or its name contains one of the 16 case-insensitive text
indicators; each disjunct alone suffices; the reason records `long text` when
the length triggered and `semantic name` otherwise; and a `DESCRIPTION`
column of type `VARCHAR` with max length 2000 is classified. -/
theorem llm_classifier_rule (r : ColumnsRow) :
    ((llmCandOfRow r).isSome = true ↔
      ((["VARCHAR", "TEXT", "STRING", "CHAR"].any fun t =>
          containsSub (pyUpper (r.data_type.getD "")) t) = true
        ∧ ((∃ n, r.max_len = some n ∧ 500 ≤ n)
            ∨ (TEXT_INDICATORS.any fun ind =>
                containsSub (pyUpper (r.col_name.getD "")) ind) = true)))
    ∧ (∀ cand, llmCandOfRow r = some cand →
        cand.ai_feature = "Cortex LLM"
        ∧ ((∃ n, r.max_len = some n ∧ 500 ≤ n) →
            containsSub cand.reason "long text" = true)
        ∧ ((¬∃ n, r.max_len = some n ∧ 500 ≤ n) →
            containsSub cand.reason "semantic name" = true))
    ∧ identify_llm_candidates
        [⟨"DB", "SCH", "TBL", some "DESCRIPTION", some "VARCHAR", some 2000, none⟩]
        = [⟨"DB", "SCH", "TBL", some "DESCRIPTION", "VARCHAR", some 2000, none,
           "Cortex LLM", "Text column (VARCHAR) - long text"⟩] := by
  have hlong : ∀ (m : Option ℤ),
      (match m with | some v => decide (500 ≤ v) | none => false) = true
        ↔ (∃ n, m = some n ∧ 500 ≤ n) := by
    intro m
    rcases m with _ | v <;> simp
  refine ⟨?_, ?_, ?_⟩
  · rcases hdt : r.data_type with _ | dt
    · simp [llmCandOfRow, hdt, pyUpper, containsSub, charsContain]
    · by_cases hde : dt = ""
      · subst hde
        simp [llmCandOfRow, hdt, pyUpper, containsSub, charsContain, TEXT_INDICATORS]
      · simp only [llmCandOfRow, hdt, if_neg hde]
        rw [Option.getD_some]
        by_cases hc : ((["VARCHAR", "TEXT", "STRING", "CHAR"].any fun t =>
              containsSub (pyUpper dt) t)
            && ((match r.max_len with | some v => decide (500 ≤ v) | none => false)
                || TEXT_INDICATORS.any fun ind =>
                    containsSub (pyUpper (r.col_name.getD "")) ind)) = true
        · rw [if_pos hc]
          simp only [Option.isSome_some, true_iff]
          rw [Bool.and_eq_true, Bool.or_eq_true] at hc
          exact ⟨hc.1, by rcases hc.2 with h | h; exacts [Or.inl ((hlong _).mp h), Or.inr h]⟩
        · rw [if_neg hc]
          refine iff_of_false (by simp) ?_
          rintro ⟨h1, h2⟩
          apply hc
          rw [Bool.and_eq_true, Bool.or_eq_true]
          exact ⟨h1, by rcases h2 with h | h; exacts [Or.inl ((hlong _).mpr h), Or.inr h]⟩
  · intro cand hcand
    rcases hdt : r.data_type with _ | dt <;> rw [llmCandOfRow, hdt] at hcand
    · simp at hcand
    · by_cases hde : dt = ""
      · simp [hde] at hcand
      · simp only [if_neg hde] at hcand
        by_cases hml : (match r.max_len with
            | some v => decide (500 ≤ v) | none => false) = true
        · rw [if_pos hml] at hcand
          split_ifs at hcand with hc
          rw [Option.some_inj] at hcand
          subst hcand
          exact ⟨rfl,
            fun _ => containsSub_append_left ("Text column (" ++ dt ++ ") - ") "long text",
            fun hl => absurd ((hlong _).mp hml) hl⟩
        · rw [if_neg hml] at hcand
          split_ifs at hcand with hc
          rw [Option.some_inj] at hcand
          subst hcand
          refine ⟨rfl, fun hl => absurd ((hlong _).mpr hl) hml,
            fun _ => containsSub_append_left ("Text column (" ++ dt ++ ") - ") "semantic name"⟩
  · simp [identify_llm_candidates, llmCandOfRow, pyUpper, containsSub, charsContain,
      charsStartWith, TEXT_INDICATORS]

/-- Witness for C6 at the spec's Scenario A column. -/
theorem llm_classifier_rule_witness :
    (llmCandOfRow
      ⟨"DB", "SCH", "TBL", some "DESCRIPTION", some "VARCHAR", some 2000, none⟩).isSome
      = true
    ∧ containsSub "Text column (VARCHAR) - long text" "long text" = true := by
  obtain ⟨h1, h2, _⟩ := llm_classifier_rule
    ⟨"DB", "SCH", "TBL", some "DESCRIPTION", some "VARCHAR", some 2000, none⟩
  have hcand : llmCandOfRow
      ⟨"DB", "SCH", "TBL", some "DESCRIPTION", some "VARCHAR", some 2000, none⟩
      = some ⟨"DB", "SCH", "TBL", some "DESCRIPTION", "VARCHAR", some 2000, none,
          "Cortex LLM", "Text column (VARCHAR) - long text"⟩ := by
    simp [llmCandOfRow, pyUpper, containsSub, charsContain, charsStartWith,
      TEXT_INDICATORS]
  refine ⟨h1.mpr ⟨?_, Or.inl ⟨2000, rfl, by norm_num⟩⟩, ?_⟩
  · simp [pyUpper, containsSub, charsContain, charsStartWith]
  · exact (h2 _ hcand).2.1 ⟨2000, rfl, by norm_num⟩

/-! ## C8 — aggregate readiness score -/

/-- The `min(round(x, 2), 100.0)` pattern shared by the table-level scorers:
nonnegative for nonnegative input, at most 100, and a fixed point of
`pyRound2`. -/
theorem minRound_props (x : ℚ) (hx : 0 ≤ x) :
    0 ≤ min (pyRound2 x) 100 ∧ min (pyRound2 x) 100 ≤ 100
    ∧ pyRound2 (min (pyRound2 x) 100) = min (pyRound2 x) 100 := by
  refine ⟨le_min (pyRound2_nonneg x hx) (by norm_num), min_le_right _ _, ?_⟩
  rcases le_total (pyRound2 x) 100 with h | h
  · rw [min_eq_left h, pyRound2_idem]
  · rw [min_eq_right h, pyRound2_hundred]

/-- `score_comments` lies in `[0, 100]` and is a `pyRound2` fixed point. -/
theorem score_comments_props (tm : TableInfo) (cols : List ColumnInfo) :
    0 ≤ score_comments tm cols ∧ score_comments tm cols ≤ 100
    ∧ pyRound2 (score_comments tm cols) = score_comments tm cols := by
  have hx : (0 : ℚ) ≤ (if pyStrip tm.table_comment ≠ "" then (40 : ℚ) else 0)
      + (if cols ≠ [] then
          ((cols.countP fun c => pyStrip c.column_comment ≠ "" : ℚ) / (cols.length : ℚ)) * 60
        else 0) := by
    split_ifs <;> positivity
  exact minRound_props _ hx

/-- `score_data_types` lies in `[0, 100]` and is a `pyRound2` fixed point. -/
theorem score_data_types_props (cols : List ColumnInfo) :
    0 ≤ score_data_types cols ∧ score_data_types cols ≤ 100
    ∧ pyRound2 (score_data_types cols) = score_data_types cols := by
  rcases cols with _ | ⟨c, cs⟩
  · refine ⟨by norm_num [score_data_types], by norm_num [score_data_types], ?_⟩
    have h0 : score_data_types [] = 0 := by norm_num [score_data_types]
    rw [h0]
    exact pyRound2_fixed _ 0 (by norm_num)
  · have hne : (c :: cs) ≠ [] := by simp
    simp only [score_data_types, if_neg hne]
    exact minRound_props _ (by positivity)

/-- `score_freshness` lies in `[0, 100]` and is a `pyRound2` fixed point. -/
theorem score_freshness_props (tm : TableInfo) :
    0 ≤ score_freshness tm ∧ score_freshness tm ≤ 100
    ∧ pyRound2 (score_freshness tm) = score_freshness tm := by
  rcases h : tm.last_altered_age_days with _ | d <;> simp only [score_freshness, h]
  · exact ⟨by norm_num, by norm_num, by norm_num [pyRound2]⟩
  · split_ifs <;> exact ⟨by norm_num, by norm_num, by norm_num [pyRound2]⟩

/-- `score_clustering` lies in `[0, 100]` and is a `pyRound2` fixed point. -/
theorem score_clustering_props (tm : TableInfo) (storage : Option ℤ) :
    0 ≤ score_clustering tm storage ∧ score_clustering tm storage ≤ 100
    ∧ pyRound2 (score_clustering tm storage) = score_clustering tm storage := by
  refine minRound_props _ (add_nonneg ?_ ?_)
  · split_ifs <;> norm_num
  · rcases storage with _ | ab
    · norm_num
    · simp only
      split_ifs <;> norm_num

/-- `score_constraints` lies in `[0, 100]` and is a `pyRound2` fixed point. -/
theorem score_constraints_props (cons : List String) :
    0 ≤ score_constraints cons ∧ score_constraints cons ≤ 100
    ∧ pyRound2 (score_constraints cons) = score_constraints cons := by
  rcases cons with _ | ⟨c, cs⟩
  · refine ⟨by norm_num [score_constraints], by norm_num [score_constraints], ?_⟩
    have h0 : score_constraints [] = 0 := by norm_num [score_constraints]
    rw [h0]
    exact pyRound2_fixed _ 0 (by norm_num)
  · have hne : (c :: cs) ≠ [] := by simp
    simp only [score_constraints, if_neg hne]
    refine minRound_props _ ?_
    split_ifs <;> norm_num

/-- C8 (amended): every dimension score lies in `[0, 100]`, the weights are
exactly 25/20/25/15/15 summing to 100, and `total_score` is
`Σ(dimension_score × weight/100)` rounded to two decimals (`round(_, 2)` in
the source), hence `0 ≤ total_score ≤ 100`. -/
theorem aggregate_readiness_bounds (tm : TableInfo) (cols : List ColumnInfo)
    (cons : List String) (storage : Option ℤ) :
    let r := compute_table_readiness_score tm cols cons storage
    ((0 ≤ r.comments ∧ r.comments ≤ 100)
      ∧ (0 ≤ r.data_types ∧ r.data_types ≤ 100)
      ∧ (0 ≤ r.freshness ∧ r.freshness ≤ 100)
      ∧ (0 ≤ r.clustering ∧ r.clustering ≤ 100)
      ∧ (0 ≤ r.constraints ∧ r.constraints ≤ 100))
    ∧ (WEIGHT_COMMENTS = 25 ∧ WEIGHT_DATA_TYPES = 20 ∧ WEIGHT_FRESHNESS = 25
      ∧ WEIGHT_CLUSTERING = 15 ∧ WEIGHT_CONSTRAINTS = 15
      ∧ WEIGHT_COMMENTS + WEIGHT_DATA_TYPES + WEIGHT_FRESHNESS
          + WEIGHT_CLUSTERING + WEIGHT_CONSTRAINTS = 100)
    ∧ r.total_score = pyRound2 (r.comments * (WEIGHT_COMMENTS / 100)
        + r.data_types * (WEIGHT_DATA_TYPES / 100)
        + r.freshness * (WEIGHT_FRESHNESS / 100)
        + r.clustering * (WEIGHT_CLUSTERING / 100)
        + r.constraints * (WEIGHT_CONSTRAINTS / 100))
    ∧ 0 ≤ r.total_score ∧ r.total_score ≤ 100 := by
  obtain ⟨ha0, ha1, ha2⟩ := score_comments_props tm cols
  obtain ⟨hb0, hb1, hb2⟩ := score_data_types_props cols
  obtain ⟨hc0, hc1, hc2⟩ := score_freshness_props tm
  obtain ⟨hd0, hd1, hd2⟩ := score_clustering_props tm storage
  obtain ⟨he0, he1, he2⟩ := score_constraints_props cons
  have e1 : (compute_table_readiness_score tm cols cons storage).comments
      = score_comments tm cols := ha2
  have e2 : (compute_table_readiness_score tm cols cons storage).data_types
      = score_data_types cols := hb2
  have e3 : (compute_table_readiness_score tm cols cons storage).freshness
      = score_freshness tm := hc2
  have e4 : (compute_table_readiness_score tm cols cons storage).clustering
      = score_clustering tm storage := hd2
  have e5 : (compute_table_readiness_score tm cols cons storage).constraints
      = score_constraints cons := he2
  have etot : (compute_table_readiness_score tm cols cons storage).total_score
      = pyRound2 (score_comments tm cols * (WEIGHT_COMMENTS / 100)
        + score_data_types cols * (WEIGHT_DATA_TYPES / 100)
        + score_freshness tm * (WEIGHT_FRESHNESS / 100)
        + score_clustering tm storage * (WEIGHT_CLUSTERING / 100)
        + score_constraints cons * (WEIGHT_CONSTRAINTS / 100)) := rfl
  have hw : WEIGHT_COMMENTS = 25 ∧ WEIGHT_DATA_TYPES = 20 ∧ WEIGHT_FRESHNESS = 25
      ∧ WEIGHT_CLUSTERING = 15 ∧ WEIGHT_CONSTRAINTS = 15 :=
    ⟨rfl, rfl, rfl, rfl, rfl⟩
  have hsum0 : 0 ≤ score_comments tm cols * (WEIGHT_COMMENTS / 100)
      + score_data_types cols * (WEIGHT_DATA_TYPES / 100)
      + score_freshness tm * (WEIGHT_FRESHNESS / 100)
      + score_clustering tm storage * (WEIGHT_CLUSTERING / 100)
      + score_constraints cons * (WEIGHT_CONSTRAINTS / 100) := by
    rw [hw.1, hw.2.1, hw.2.2.1, hw.2.2.2.1, hw.2.2.2.2]
    positivity
  have hsum1 : score_comments tm cols * (WEIGHT_COMMENTS / 100)
      + score_data_types cols * (WEIGHT_DATA_TYPES / 100)
      + score_freshness tm * (WEIGHT_FRESHNESS / 100)
      + score_clustering tm storage * (WEIGHT_CLUSTERING / 100)
      + score_constraints cons * (WEIGHT_CONSTRAINTS / 100) ≤ 100 := by
    rw [hw.1, hw.2.1, hw.2.2.1, hw.2.2.2.1, hw.2.2.2.2]
    linarith
  refine ⟨⟨⟨?_, ?_⟩, ⟨?_, ?_⟩, ⟨?_, ?_⟩, ⟨?_, ?_⟩, ⟨?_, ?_⟩⟩,
    ⟨hw.1, hw.2.1, hw.2.2.1, hw.2.2.2.1, hw.2.2.2.2, by norm_num [WEIGHT_COMMENTS,
      WEIGHT_DATA_TYPES, WEIGHT_FRESHNESS, WEIGHT_CLUSTERING, WEIGHT_CONSTRAINTS]⟩,
    ?_, ?_, ?_⟩
  · rw [e1]; exact ha0
  · rw [e1]; exact ha1
  · rw [e2]; exact hb0
  · rw [e2]; exact hb1
  · rw [e3]; exact hc0
  · rw [e3]; exact hc1
  · rw [e4]; exact hd0
  · rw [e4]; exact hd1
  · rw [e5]; exact he0
  · rw [e5]; exact he1
  · rw [e1, e2, e3, e4, e5]
    exact etot
  · rw [etot]
    exact pyRound2_nonneg _ hsum0
  · rw [etot]
    have hto := pyRound2_le_int (score_comments tm cols * (WEIGHT_COMMENTS / 100)
        + score_data_types cols * (WEIGHT_DATA_TYPES / 100)
        + score_freshness tm * (WEIGHT_FRESHNESS / 100)
        + score_clustering tm storage * (WEIGHT_CLUSTERING / 100)
        + score_constraints cons * (WEIGHT_CONSTRAINTS / 100)) 100 (by push_cast; linarith)
    push_cast at hto
    linarith

/-- Counterexample for C8 as stated: for a table with no comment and one of
nine `BINARY` columns commented, the comments dimension is `6.67`, the exact
weighted sum is `1.6675`, and the reported `total_score` is its rounding
`1.67` — so `total_score` is not exactly `Σ(dimension_score × weight/100)`. -/
theorem aggregate_readiness_rounding_counterexample :
    (compute_table_readiness_score ⟨"", "", none⟩
        [⟨"C1", "has a comment", "BINARY"⟩, ⟨"C2", "", "BINARY"⟩, ⟨"C3", "", "BINARY"⟩,
         ⟨"C4", "", "BINARY"⟩, ⟨"C5", "", "BINARY"⟩, ⟨"C6", "", "BINARY"⟩,
         ⟨"C7", "", "BINARY"⟩, ⟨"C8", "", "BINARY"⟩, ⟨"C9", "", "BINARY"⟩] [] none).total_score
      = 167/100
    ∧ (compute_table_readiness_score ⟨"", "", none⟩
        [⟨"C1", "has a comment", "BINARY"⟩, ⟨"C2", "", "BINARY"⟩, ⟨"C3", "", "BINARY"⟩,
         ⟨"C4", "", "BINARY"⟩, ⟨"C5", "", "BINARY"⟩, ⟨"C6", "", "BINARY"⟩,
         ⟨"C7", "", "BINARY"⟩, ⟨"C8", "", "BINARY"⟩, ⟨"C9", "", "BINARY"⟩] [] none).total_score
      ≠ (compute_table_readiness_score ⟨"", "", none⟩
        [⟨"C1", "has a comment", "BINARY"⟩, ⟨"C2", "", "BINARY"⟩, ⟨"C3", "", "BINARY"⟩,
         ⟨"C4", "", "BINARY"⟩, ⟨"C5", "", "BINARY"⟩, ⟨"C6", "", "BINARY"⟩,
         ⟨"C7", "", "BINARY"⟩, ⟨"C8", "", "BINARY"⟩, ⟨"C9", "", "BINARY"⟩] [] none).comments
          * (WEIGHT_COMMENTS / 100)
        + (compute_table_readiness_score ⟨"", "", none⟩
        [⟨"C1", "has a comment", "BINARY"⟩, ⟨"C2", "", "BINARY"⟩, ⟨"C3", "", "BINARY"⟩,
         ⟨"C4", "", "BINARY"⟩, ⟨"C5", "", "BINARY"⟩, ⟨"C6", "", "BINARY"⟩,
         ⟨"C7", "", "BINARY"⟩, ⟨"C8", "", "BINARY"⟩, ⟨"C9", "", "BINARY"⟩] [] none).data_types
          * (WEIGHT_DATA_TYPES / 100)
        + (compute_table_readiness_score ⟨"", "", none⟩
        [⟨"C1", "has a comment", "BINARY"⟩, ⟨"C2", "", "BINARY"⟩, ⟨"C3", "", "BINARY"⟩,
         ⟨"C4", "", "BINARY"⟩, ⟨"C5", "", "BINARY"⟩, ⟨"C6", "", "BINARY"⟩,
         ⟨"C7", "", "BINARY"⟩, ⟨"C8", "", "BINARY"⟩, ⟨"C9", "", "BINARY"⟩] [] none).freshness
          * (WEIGHT_FRESHNESS / 100)
        + (compute_table_readiness_score ⟨"", "", none⟩
        [⟨"C1", "has a comment", "BINARY"⟩, ⟨"C2", "", "BINARY"⟩, ⟨"C3", "", "BINARY"⟩,
         ⟨"C4", "", "BINARY"⟩, ⟨"C5", "", "BINARY"⟩, ⟨"C6", "", "BINARY"⟩,
         ⟨"C7", "", "BINARY"⟩, ⟨"C8", "", "BINARY"⟩, ⟨"C9", "", "BINARY"⟩] [] none).clustering
          * (WEIGHT_CLUSTERING / 100)
        + (compute_table_readiness_score ⟨"", "", none⟩
        [⟨"C1", "has a comment", "BINARY"⟩, ⟨"C2", "", "BINARY"⟩, ⟨"C3", "", "BINARY"⟩,
         ⟨"C4", "", "BINARY"⟩, ⟨"C5", "", "BINARY"⟩, ⟨"C6", "", "BINARY"⟩,
         ⟨"C7", "", "BINARY"⟩, ⟨"C8", "", "BINARY"⟩, ⟨"C9", "", "BINARY"⟩] [] none).constraints
          * (WEIGHT_CONSTRAINTS / 100) := by
  constructor <;>
    simp [compute_table_readiness_score, score_comments, score_data_types,
      score_freshness, score_clustering, score_constraints, baseTypeOf,
      pyStrip, pyUpper, upToParen, UNSUPPORTED_AI_TYPES, SEMI_STRUCTURED_TYPES,
      WEIGHT_COMMENTS, WEIGHT_DATA_TYPES, WEIGHT_FRESHNESS, WEIGHT_CLUSTERING,
      WEIGHT_CONSTRAINTS, pyRound2] <;>
    norm_num

/-! ## C10 — merge contract -/

/-- Characterization of the candidates `merge_candidates` appends: the new
candidates whose key is not among `keys`, keeping only the first occurrence
of each new key. -/
def newKeysOnly (keys : List String) : List MergeCand → List MergeCand
  | [] => []
  | c :: cs =>
    if keys.contains (candKey c) then newKeysOnly keys cs
    else c :: newKeysOnly (candKey c :: keys) cs

/-- At most every new candidate is appended. -/
theorem newKeysOnly_length_le (cs : List MergeCand) :
    ∀ keys, (newKeysOnly keys cs).length ≤ cs.length := by
  induction cs with
  | nil => intro keys; simp [newKeysOnly]
  | cons c cs ih =>
    intro keys
    simp only [newKeysOnly]
    split_ifs
    · exact le_trans (ih keys) (by simp)
    · simpa using ih (candKey c :: keys)

/-- The appended candidates are a sublist of the new list (input order). -/
theorem newKeysOnly_sublist (cs : List MergeCand) :
    ∀ keys, List.Sublist (newKeysOnly keys cs) cs := by
  induction cs with
  | nil => intro keys; simp [newKeysOnly]
  | cons c cs ih =>
    intro keys
    simp only [newKeysOnly]
    split_ifs
    · exact (ih keys).cons c
    · exact (ih (candKey c :: keys)).cons₂ c

/-- Every appended candidate's key is absent from the seen keys. -/
theorem newKeysOnly_fresh (cs : List MergeCand) :
    ∀ keys, ∀ c ∈ newKeysOnly keys cs, candKey c ∉ keys := by
  induction cs with
  | nil => intro keys c hc; simp [newKeysOnly] at hc
  | cons a cs ih =>
    intro keys c hc
    simp only [newKeysOnly] at hc
    split_ifs at hc with ha
    · exact ih keys c hc
    · rcases List.mem_cons.mp hc with hc | hc
      · subst hc; exact fun h => ha (by simpa using h)
      · intro h
        exact ih (candKey a :: keys) c hc (by simp [h])

/-- The merge loop returns the accumulator extended by exactly the
first-occurrence new-key candidates, counting the rest as already existed. -/
theorem mergeLoop_spec (cs : List MergeCand) :
    ∀ (keys : List String) (acc : List MergeCand) (a u : ℕ),
      mergeLoop keys acc a u cs
        = (acc ++ newKeysOnly keys cs, a + (newKeysOnly keys cs).length,
           u + (cs.length - (newKeysOnly keys cs).length)) := by
  induction cs with
  | nil => intro keys acc a u; simp [mergeLoop, newKeysOnly]
  | cons c cs ih =>
    intro keys acc a u
    simp only [mergeLoop, newKeysOnly]
    split_ifs with h
    · rw [ih]
      have hle := newKeysOnly_length_le cs keys
      simp only [Prod.mk.injEq, List.length_cons]
      refine ⟨?_, ?_, ?_⟩ <;> first | trivial | omega
    · rw [ih]
      have hle := newKeysOnly_length_le cs (candKey c :: keys)
      simp only [Prod.mk.injEq, List.length_cons, List.append_assoc,
        List.singleton_append]
      refine ⟨?_, ?_, ?_⟩ <;> first | trivial | omega

/-- C10: `merge_candidates` merges on the key `database.schema.table.column`:
the existing list is returned unchanged as a prefix (first-seen wins), new
keys are appended in input order, `added + already_existed` accounts for
every new candidate, the result length is the existing length plus `added`;
and the spec's Scenario E — one duplicate key and one new key — yields
`added = 1`, `already_existed = 1`, and a result exactly one longer, with the
original candidate untouched. -/
theorem merge_contract (existing new_candidates : List MergeCand) :
    ((merge_candidates existing new_candidates).1
        = existing ++ newKeysOnly (existing.map candKey) new_candidates)
    ∧ List.Sublist (newKeysOnly (existing.map candKey) new_candidates) new_candidates
    ∧ (∀ c ∈ newKeysOnly (existing.map candKey) new_candidates,
        candKey c ∉ existing.map candKey)
    ∧ (merge_candidates existing new_candidates).2.1
        = (newKeysOnly (existing.map candKey) new_candidates).length
    ∧ (merge_candidates existing new_candidates).2.1
        + (merge_candidates existing new_candidates).2.2 = new_candidates.length
    ∧ (merge_candidates existing new_candidates).1.length
        = existing.length + (merge_candidates existing new_candidates).2.1
    ∧ merge_candidates [⟨"A", "B", "C", some "D", "orig"⟩]
        [⟨"A", "B", "C", some "D", "dup"⟩, ⟨"A", "B", "C", some "E", "new"⟩]
        = ([⟨"A", "B", "C", some "D", "orig"⟩, ⟨"A", "B", "C", some "E", "new"⟩], 1, 1) := by
  have hs := mergeLoop_spec new_candidates (existing.map candKey) existing 0 0
  have hle := newKeysOnly_length_le new_candidates (existing.map candKey)
  rw [merge_candidates] at *
  refine ⟨by rw [hs], newKeysOnly_sublist _ _, newKeysOnly_fresh _ _, ?_, ?_, ?_, ?_⟩
  · rw [hs]
    simp
  · rw [hs]
    simp only
    omega
  · rw [hs]
    simp [List.length_append]
  · simp [merge_candidates, mergeLoop, candKey, newKeysOnly]

/-- Witness for C10: the appended Scenario E candidate's key is genuinely
new. -/
theorem merge_contract_witness :
    candKey ⟨"A", "B", "C", some "E", "new"⟩
      ∉ ([⟨"A", "B", "C", some "D", "orig"⟩] : List MergeCand).map candKey := by
  apply (merge_contract [⟨"A", "B", "C", some "D", "orig"⟩]
    [⟨"A", "B", "C", some "D", "dup"⟩, ⟨"A", "B", "C", some "E", "new"⟩]).2.2.1
  simp [newKeysOnly, candKey]
